import Mathlib

/-!
Verification of the metrics sampling / rolling-history / threshold-alert
engine of the Ursly desktop app, as implemented in
`src/apps/vfs-desktop/src/pages/MetricsPage.tsx`.

Numbers are modelled as rationals (JS numbers, with the exact constant
`0.9` written `9 / 10`).  The JS `Set` held in `alertedRef.current` is
modelled as a `Finset String`.  A toast notification is modelled as an
`AlertEvent` carrying the alert key of the branch that raised it, the
toast type (`warning` / `error`) and the raw metric value shown in the
message (the `toFixed` string formatting of the message is not part of
any claim and is not modelled).
-/

namespace Ursly

/-- Toast type used by `showToast` in the alert branches. -/
inductive Severity where
  | warning
  | error
deriving DecidableEq

/-- One emitted alert notification: the active-set key of the branch that
raised it, the toast type, and the metric value in the message. -/
structure AlertEvent where
  key : String
  severity : Severity
  value : ℚ
deriving DecidableEq

/-- Translated from `interface GpuInfo` (MetricsPage.tsx). -/
structure GpuInfo where
  id : ℕ
  name : String
  vendor : String
  memory_total_mb : ℚ
deriving DecidableEq

/-- Translated from `interface GpuMetrics`; only the fields read by the
alerting / history logic are kept (the remaining fields are display-only
and never inspected by the code under verification).
`temperature_celsius : number | null` becomes `Option ℚ`. -/
structure GpuMetrics where
  gpu_utilization : ℚ
  memory_utilization : ℚ
  temperature_celsius : Option ℚ
deriving DecidableEq

/-- Translated from `interface SystemMetrics`; only the fields read by the
alerting / history logic are kept. -/
structure SystemMetrics where
  cpu_usage : ℚ
  memory_usage_percent : ℚ
  swap_used_mb : ℚ
  swap_total_mb : ℚ
  disk_read_bytes_sec : ℚ
  disk_write_bytes_sec : ℚ
  network_rx_bytes_sec : ℚ
  network_tx_bytes_sec : ℚ
deriving DecidableEq

/-- Translated from `interface GpuWithMetrics` (the `history` field is
produced by the backend and never read by the verified logic). -/
structure GpuWithMetrics where
  info : GpuInfo
  current : GpuMetrics
deriving DecidableEq

/-- Translated from `interface AllMetrics`. -/
structure AllMetrics where
  gpus : List GpuWithMetrics
  system : SystemMetrics
deriving DecidableEq

/-- Translated from `interface ThresholdConfig`. -/
structure ThresholdConfig where
  cpu : ℚ
  memory : ℚ
  swap : ℚ
  gpu : ℚ
  gpuMemory : ℚ
  temperature : ℚ
  diskIO : ℚ
  networkIO : ℚ
deriving DecidableEq

/-- Translated from `DEFAULT_THRESHOLDS`. -/
def DEFAULT_THRESHOLDS : ThresholdConfig where
  cpu := 90
  memory := 85
  swap := 75
  gpu := 90
  gpuMemory := 90
  temperature := 85
  diskIO := 500
  networkIO := 100

/-- A persisted threshold record as produced by
`JSON.parse(localStorage.getItem('ursly-metric-thresholds'))`: any subset
of the eight keys may be present. -/
structure PersistedThresholds where
  cpu : Option ℚ
  memory : Option ℚ
  swap : Option ℚ
  gpu : Option ℚ
  gpuMemory : Option ℚ
  temperature : Option ℚ
  diskIO : Option ℚ
  networkIO : Option ℚ
deriving DecidableEq

/-- Translated from `loadThresholds`.  The argument is the outcome of the
read: `none` when no record is stored or when `localStorage.getItem` /
`JSON.parse` throws (the `catch` path), `some p` when a record parses.
The spread `{ ...DEFAULT_THRESHOLDS, ...JSON.parse(saved) }` keeps every
present key of the parsed record and falls back to the default for every
absent key.  The function is total: no outcome raises. -/
def loadThresholds : Option PersistedThresholds → ThresholdConfig
  | none => DEFAULT_THRESHOLDS
  | some p =>
    { cpu := Option.getD p.cpu DEFAULT_THRESHOLDS.cpu
      memory := Option.getD p.memory DEFAULT_THRESHOLDS.memory
      swap := Option.getD p.swap DEFAULT_THRESHOLDS.swap
      gpu := Option.getD p.gpu DEFAULT_THRESHOLDS.gpu
      gpuMemory := Option.getD p.gpuMemory DEFAULT_THRESHOLDS.gpuMemory
      temperature := Option.getD p.temperature DEFAULT_THRESHOLDS.temperature
      diskIO := Option.getD p.diskIO DEFAULT_THRESHOLDS.diskIO
      networkIO := Option.getD p.networkIO DEFAULT_THRESHOLDS.networkIO }

/-- State threaded through one run of `checkThresholds`: the active alert
set (`alertedRef.current`) plus the toasts emitted so far, in order. -/
structure EvalState where
  alerts : Finset String
  events : List AlertEvent
deriving DecidableEq

/-- One scalar alert branch of `checkThresholds`.  Mirrors the pattern
`if (v >= t && !alerts.has(k)) { showToast(...); alerts.add(k) }
else if (v < t * 0.9) { alerts.delete(k) }`. -/
def alertStep (key : String) (sev : Severity) (v t : ℚ) (s : EvalState) : EvalState :=
  if v ≥ t ∧ key ∉ s.alerts then
    { alerts := insert key s.alerts, events := s.events ++ [⟨key, sev, v⟩] }
  else if v < t * (9 / 10) then
    { alerts := s.alerts.erase key, events := s.events }
  else
    s

/-- The temperature branch of `checkThresholds`.  Mirrors
`if (temp && temp >= t && !alerts.has(k)) { showToast(error); alerts.add(k) }
else if (!temp || temp < t * 0.9) { alerts.delete(k) }` where
`temp : number | null` and JS truthiness makes both `null` and `0` falsy. -/
def tempStep (key : String) (temp : Option ℚ) (t : ℚ) (s : EvalState) : EvalState :=
  match temp with
  | none => { alerts := s.alerts.erase key, events := s.events }
  | some v =>
    if v ≠ 0 ∧ v ≥ t ∧ key ∉ s.alerts then
      { alerts := insert key s.alerts, events := s.events ++ [⟨key, Severity.error, v⟩] }
    else if v = 0 ∨ v < t * (9 / 10) then
      { alerts := s.alerts.erase key, events := s.events }
    else
      s

/-- Swap usage as computed inline in `checkThresholds` (and again in the
history updater): `swap_total_mb > 0 ? swap_used_mb / swap_total_mb * 100 : 0`. -/
def swapPercent (sys : SystemMetrics) : ℚ :=
  if sys.swap_total_mb > 0 then sys.swap_used_mb / sys.swap_total_mb * 100 else 0

/-- Alert key of the GPU-utilization branch for the device at position `i`
of `data.gpus`: the template literal `gpu-${i}` with `i` the `forEach`
index. -/
def gpuKey (i : ℕ) : String := "gpu-" ++ toString i

/-- Alert key `gpuMem-${i}` of the GPU-memory branch. -/
def gpuMemKey (i : ℕ) : String := "gpuMem-" ++ toString i

/-- Alert key `temp-${i}` of the temperature branch. -/
def tempKey (i : ℕ) : String := "temp-" ++ toString i

/-- Body of `data.gpus.forEach((gpu, i) => ...)`: the three per-device
branches, in source order. -/
def gpuStep (th : ThresholdConfig) (i : ℕ) (g : GpuWithMetrics) (s : EvalState) : EvalState :=
  tempStep (tempKey i) g.current.temperature_celsius th.temperature
    (alertStep (gpuMemKey i) Severity.warning g.current.memory_utilization th.gpuMemory
      (alertStep (gpuKey i) Severity.warning g.current.gpu_utilization th.gpu s))

/-- Indexed iteration of `gpuStep` over the remaining devices, `i` being
the `forEach` index of the head device. -/
def gpuAlertsAux (th : ThresholdConfig) : ℕ → List GpuWithMetrics → EvalState → EvalState
  | _, [], s => s
  | i, g :: rest, s => gpuAlertsAux th (i + 1) rest (gpuStep th i g s)

/-- Translated from `checkThresholds`: the CPU, memory and swap branches
in source order, then the `forEach` over `data.gpus`.  `active` is the
content of `alertedRef.current` on entry; the result carries the updated
set and the toasts emitted during this evaluation. -/
def checkThresholds (th : ThresholdConfig) (data : AllMetrics) (active : Finset String) : EvalState :=
  gpuAlertsAux th 0 data.gpus
    (alertStep "swap" Severity.warning (swapPercent data.system) th.swap
      (alertStep "memory" Severity.warning data.system.memory_usage_percent th.memory
        (alertStep "cpu" Severity.warning data.system.cpu_usage th.cpu
          { alerts := active, events := [] })))

/-- One rolling-history append as written in the `setHistoricalData`
updater: `[...prev.slice(-59), x]`.  `slice(-59)` keeps the last 59
elements, so the result never exceeds 60 entries. -/
def rollAppend (prev : List ℚ) (x : ℚ) : List ℚ :=
  prev.drop (prev.length - 59) ++ [x]

/-- The ten parallel rolling-history buffers of `historicalData`. -/
structure HistoricalData where
  cpu : List ℚ
  memory : List ℚ
  swap : List ℚ
  gpu : List ℚ
  gpuMem : List ℚ
  gpuTemp : List ℚ
  diskRead : List ℚ
  diskWrite : List ℚ
  netRx : List ℚ
  netTx : List ℚ
deriving DecidableEq

/-- Initial `historicalData` state: all buffers empty. -/
def emptyHistorical : HistoricalData where
  cpu := []
  memory := []
  swap := []
  gpu := []
  gpuMem := []
  gpuTemp := []
  diskRead := []
  diskWrite := []
  netRx := []
  netTx := []

/-- Translated from the `setHistoricalData` functional updater in
`fetchMetrics`.  `gpu0` models `const gpu = data.gpus[0]` and the
`gpu?.current.x ?? 0` accesses (a missing first device, and a `null`
temperature, both contribute `0`). -/
def updateHistorical (prev : HistoricalData) (data : AllMetrics) : HistoricalData :=
  let gpu0 := data.gpus.head?
  { cpu := rollAppend prev.cpu data.system.cpu_usage
    memory := rollAppend prev.memory data.system.memory_usage_percent
    swap := rollAppend prev.swap (swapPercent data.system)
    gpu := rollAppend prev.gpu (Option.getD (gpu0.map (fun g => g.current.gpu_utilization)) 0)
    gpuMem := rollAppend prev.gpuMem (Option.getD (gpu0.map (fun g => g.current.memory_utilization)) 0)
    gpuTemp := rollAppend prev.gpuTemp (Option.getD (gpu0.bind (fun g => g.current.temperature_celsius)) 0)
    diskRead := rollAppend prev.diskRead data.system.disk_read_bytes_sec
    diskWrite := rollAppend prev.diskWrite data.system.disk_write_bytes_sec
    netRx := rollAppend prev.netRx data.system.network_rx_bytes_sec
    netTx := rollAppend prev.netTx data.system.network_tx_bytes_sec }

/-- The component state touched by `fetchMetrics` and the alert logic. -/
structure PageState where
  metrics : Option AllMetrics
  error : Option String
  sessionUptime : ℚ
  thresholds : ThresholdConfig
  activeAlerts : Finset String
  historical : HistoricalData
deriving DecidableEq

/-- Translated from the body of `fetchMetrics`.  The argument is the
outcome of `await invokeTauri('get_all_metrics')`.  On success the code
stores the snapshot, clears the error, bumps the session uptime, runs
`checkThresholds` (mutating the active set and emitting toasts) and
appends to every history buffer.  On failure only the error message is
stored; nothing else is touched. -/
def fetchTick (s : PageState) : Except String AllMetrics → PageState × List AlertEvent
  | Except.ok data =>
    let es := checkThresholds s.thresholds data s.activeAlerts
    ({ metrics := some data
       error := none
       sessionUptime := s.sessionUptime + 2
       thresholds := s.thresholds
       activeAlerts := es.alerts
       historical := updateHistorical s.historical data }, es.events)
  | Except.error msg => ({ s with error := some msg }, [])

/-- A run of consecutive ticks: `setInterval(fetchMetrics, 2000)` invokes
`fetchTick` once per elapsed interval with that tick's fetch outcome.
Returns the final state and all toasts emitted along the run. -/
def runTicks (s : PageState) : List (Except String AllMetrics) → PageState × List AlertEvent
  | [] => (s, [])
  | r :: rest =>
    let t1 := fetchTick s r
    let t2 := runTicks t1.1 rest
    (t2.1, t1.2 ++ t2.2)

/-- The sampling loop: the page state plus whether the `useEffect` cleanup
already ran `clearInterval` (which only prevents future interval
callbacks from starting). -/
structure LoopState where
  page : PageState
  intervalCleared : Bool
deriving DecidableEq

/-- Translated from the `useEffect` cleanup `() => clearInterval(interval)`:
the sole shutdown action of the loop. -/
def stopLoop (s : LoopState) : LoopState := { s with intervalCleared := true }

/-- An interval-scheduled tick: after `clearInterval` the browser never
invokes the callback again, so a scheduled tick fires only while the
interval is live. -/
def intervalTick (s : LoopState) (r : Except String AllMetrics) : LoopState × List AlertEvent :=
  if s.intervalCleared then (s, [])
  else
    let t := fetchTick s.page r
    ({ s with page := t.1 }, t.2)

/-- Resolution of a fetch that was already in flight when the interval was
cleared: the `async` body of `fetchMetrics` resumes after its `await` and
runs to completion.  The source contains no generation counter, mounted
flag or any other stop check between the `await` and the state updates,
so the result is processed exactly as on a live tick. -/
def resolveInFlight (s : LoopState) (r : Except String AllMetrics) : LoopState × List AlertEvent :=
  let t := fetchTick s.page r
  ({ s with page := t.1 }, t.2)

/-- Translated from `handleSaveThresholds`: stores the new configuration
(persistence is best-effort and ignored here) and runs
`alertedRef.current.clear()`. -/
def handleSaveThresholds (s : PageState) (newTh : ThresholdConfig) : PageState :=
  { s with thresholds := newTh, activeAlerts := ∅ }

/-- Events of `evs` whose alert key is `k`. -/
def eventsFor (k : String) (evs : List AlertEvent) : List AlertEvent :=
  evs.filter (fun e => e.key = k)

/-- The tracked metrics of one snapshot, per the evaluator: the three
scalar system metrics and the three per-device metrics of the device at
each position of `data.gpus`. -/
inductive Metric where
  | cpu
  | memory
  | swap
  | gpuUtil (i : ℕ)
  | gpuMem (i : ℕ)
  | temp (i : ℕ)
deriving DecidableEq

/-- The active-set key the evaluator uses for a metric. -/
def Metric.key : Metric → String
  | .cpu => "cpu"
  | .memory => "memory"
  | .swap => "swap"
  | .gpuUtil i => gpuKey i
  | .gpuMem i => gpuMemKey i
  | .temp i => tempKey i

/-- The configured threshold the evaluator compares a metric against. -/
def Metric.threshold : Metric → ThresholdConfig → ℚ
  | .cpu, th => th.cpu
  | .memory, th => th.memory
  | .swap, th => th.swap
  | .gpuUtil _, th => th.gpu
  | .gpuMem _, th => th.gpuMemory
  | .temp _, th => th.temperature

/-- Whether a metric is temperature-class. -/
def Metric.isTemp : Metric → Bool
  | .temp _ => true
  | _ => false

/-- The current value of a metric in a snapshot: `none` when the device
position is absent or the optional temperature reading is missing. -/
def Metric.value? : Metric → AllMetrics → Option ℚ
  | .cpu, d => some d.system.cpu_usage
  | .memory, d => some d.system.memory_usage_percent
  | .swap, d => some (swapPercent d.system)
  | .gpuUtil i, d => (d.gpus[i]?).map (fun g => g.current.gpu_utilization)
  | .gpuMem i, d => (d.gpus[i]?).map (fun g => g.current.memory_utilization)
  | .temp i, d => (d.gpus[i]?).bind (fun g => g.current.temperature_celsius)

/-- A snapshot whose only nonzero reading is the CPU metric; used to feed
value sequences through the evaluator. -/
def cpuSnapshot (v : ℚ) : AllMetrics where
  gpus := []
  system :=
    { cpu_usage := v
      memory_usage_percent := 0
      swap_used_mb := 0
      swap_total_mb := 0
      disk_read_bytes_sec := 0
      disk_write_bytes_sec := 0
      network_rx_bytes_sec := 0
      network_tx_bytes_sec := 0 }

/-- Feed a sequence of snapshots through consecutive evaluations, carrying
the active set across ticks and collecting all emitted events. -/
def evalSeq (th : ThresholdConfig) (active : Finset String) :
    List AllMetrics → Finset String × List AlertEvent
  | [] => (active, [])
  | d :: rest =>
    let r := checkThresholds th d active
    let t := evalSeq th r.alerts rest
    (t.1, r.events ++ t.2)

/-- Whether `k` is one of the three alert keys of the device at position `j`. -/
def devKeyAt (k : String) (j : ℕ) : Prop :=
  k = gpuKey j ∨ k = gpuMemKey j ∨ k = tempKey j

instance (k : String) (j : ℕ) : Decidable (devKeyAt k j) := by
  unfold devKeyAt; infer_instance

/-- Decimal value of a digit-character list; used below to invert `Nat.repr`
and obtain injectivity of the `${i}` key suffixes. -/
def digitsVal (l : List Char) : ℕ :=
  l.foldl (fun a c => 10 * a + (c.toNat - 48)) 0

end Ursly

unseal Rat.mul Rat.inv Rat.add Rat.sub

namespace Ursly

theorem toDigitsCore_acc (fuel : ℕ) : ∀ (n : ℕ) (ds : List Char),
    Nat.toDigitsCore 10 fuel n ds = Nat.toDigitsCore 10 fuel n [] ++ ds := by
  induction fuel with
  | zero => intro n ds; simp [Nat.toDigitsCore]
  | succ f ih =>
    intro n ds
    simp only [Nat.toDigitsCore]
    by_cases h : n / 10 = 0
    · simp [h]
    · simp only [if_neg h]
      rw [ih (n / 10) (Nat.digitChar (n % 10) :: ds), ih (n / 10) [Nat.digitChar (n % 10)]]
      simp

theorem digitsVal_append_singleton (l : List Char) (c : Char) :
    digitsVal (l ++ [c]) = 10 * digitsVal l + (c.toNat - 48) := by
  simp [digitsVal, List.foldl_append]

theorem digitChar_inv : ∀ d : ℕ, d < 10 → (Nat.digitChar d).toNat - 48 = d := by decide

theorem digitsVal_toDigitsCore : ∀ (fuel n : ℕ), n < fuel →
    digitsVal (Nat.toDigitsCore 10 fuel n []) = n := by
  intro fuel
  induction fuel with
  | zero => intro n hn; omega
  | succ f ih =>
    intro n hn
    simp only [Nat.toDigitsCore]
    by_cases h : n / 10 = 0
    · rw [if_pos h]
      have h9 : n % 10 = n := by omega
      simp [digitsVal, h9, digitChar_inv n (by omega)]
    · rw [if_neg h, toDigitsCore_acc, digitsVal_append_singleton, ih (n / 10) (by omega),
        digitChar_inv (n % 10) (by omega)]
      omega

theorem natRepr_injective : Function.Injective Nat.repr := by
  intro m n h
  have h2 : Nat.toDigits 10 m = Nat.toDigits 10 n := congrArg String.data h
  have h3 := congrArg digitsVal h2
  rwa [Nat.toDigits, Nat.toDigits, digitsVal_toDigitsCore (m + 1) m (by omega),
    digitsVal_toDigitsCore (n + 1) n (by omega)] at h3

theorem toString_nat_injective {i j : ℕ} (h : toString i = toString j) : i = j :=
  natRepr_injective h

theorem key_head_ne {a b : String} (h : a.data.head? ≠ b.data.head?) : a ≠ b :=
  fun e => h (congrArg (fun s => s.data.head?) e)

theorem key_fourth_ne {a b : String} (h : (a.data.drop 3).head? ≠ (b.data.drop 3).head?) : a ≠ b :=
  fun e => h (congrArg (fun s => (s.data.drop 3).head?) e)

theorem gpuKey_head (i : ℕ) : (gpuKey i).data.head? = some 'g' := by
  simp only [gpuKey, String.data_append]
  rfl

theorem gpuMemKey_head (i : ℕ) : (gpuMemKey i).data.head? = some 'g' := by
  simp only [gpuMemKey, String.data_append]
  rfl

theorem tempKey_head (i : ℕ) : (tempKey i).data.head? = some 't' := by
  simp only [tempKey, String.data_append]
  rfl

theorem gpuKey_fourth (i : ℕ) : ((gpuKey i).data.drop 3).head? = some '-' := by
  simp only [gpuKey, String.data_append]
  rfl

theorem gpuMemKey_fourth (i : ℕ) : ((gpuMemKey i).data.drop 3).head? = some 'M' := by
  simp only [gpuMemKey, String.data_append]
  rfl

theorem cpu_ne_gpuKey (i : ℕ) : "cpu" ≠ gpuKey i :=
  key_head_ne (by rw [gpuKey_head]; decide)

theorem cpu_ne_gpuMemKey (i : ℕ) : "cpu" ≠ gpuMemKey i :=
  key_head_ne (by rw [gpuMemKey_head]; decide)

theorem cpu_ne_tempKey (i : ℕ) : "cpu" ≠ tempKey i :=
  key_head_ne (by rw [tempKey_head]; decide)

theorem memory_ne_gpuKey (i : ℕ) : "memory" ≠ gpuKey i :=
  key_head_ne (by rw [gpuKey_head]; decide)

theorem memory_ne_gpuMemKey (i : ℕ) : "memory" ≠ gpuMemKey i :=
  key_head_ne (by rw [gpuMemKey_head]; decide)

theorem memory_ne_tempKey (i : ℕ) : "memory" ≠ tempKey i :=
  key_head_ne (by rw [tempKey_head]; decide)

theorem swap_ne_gpuKey (i : ℕ) : "swap" ≠ gpuKey i :=
  key_head_ne (by rw [gpuKey_head]; decide)

theorem swap_ne_gpuMemKey (i : ℕ) : "swap" ≠ gpuMemKey i :=
  key_head_ne (by rw [gpuMemKey_head]; decide)

theorem swap_ne_tempKey (i : ℕ) : "swap" ≠ tempKey i :=
  key_head_ne (by rw [tempKey_head]; decide)

theorem gpuKey_ne_gpuMemKey (i j : ℕ) : gpuKey i ≠ gpuMemKey j :=
  key_fourth_ne (by rw [gpuKey_fourth, gpuMemKey_fourth]; decide)

theorem gpuKey_ne_tempKey (i j : ℕ) : gpuKey i ≠ tempKey j :=
  key_head_ne (by rw [gpuKey_head, tempKey_head]; decide)

theorem gpuMemKey_ne_tempKey (i j : ℕ) : gpuMemKey i ≠ tempKey j :=
  key_head_ne (by rw [gpuMemKey_head, tempKey_head]; decide)

theorem gpuKey_inj {i j : ℕ} (h : gpuKey i = gpuKey j) : i = j := by
  have h2 := congrArg String.data h
  simp only [gpuKey, String.data_append] at h2
  exact toString_nat_injective (String.ext (List.append_cancel_left h2))

theorem gpuMemKey_inj {i j : ℕ} (h : gpuMemKey i = gpuMemKey j) : i = j := by
  have h2 := congrArg String.data h
  simp only [gpuMemKey, String.data_append] at h2
  exact toString_nat_injective (String.ext (List.append_cancel_left h2))

theorem tempKey_inj {i j : ℕ} (h : tempKey i = tempKey j) : i = j := by
  have h2 := congrArg String.data h
  simp only [tempKey, String.data_append] at h2
  exact toString_nat_injective (String.ext (List.append_cancel_left h2))

theorem cpu_not_devKeyAt (j : ℕ) : ¬devKeyAt "cpu" j := by
  rintro (h | h | h)
  exacts [cpu_ne_gpuKey j h, cpu_ne_gpuMemKey j h, cpu_ne_tempKey j h]

theorem memory_not_devKeyAt (j : ℕ) : ¬devKeyAt "memory" j := by
  rintro (h | h | h)
  exacts [memory_ne_gpuKey j h, memory_ne_gpuMemKey j h, memory_ne_tempKey j h]

theorem swap_not_devKeyAt (j : ℕ) : ¬devKeyAt "swap" j := by
  rintro (h | h | h)
  exacts [swap_ne_gpuKey j h, swap_ne_gpuMemKey j h, swap_ne_tempKey j h]

theorem devKeyAt_gpuKey {i j : ℕ} (h : devKeyAt (gpuKey i) j) : j = i := by
  rcases h with h | h | h
  · exact (gpuKey_inj h).symm
  · exact absurd h (gpuKey_ne_gpuMemKey i j)
  · exact absurd h (gpuKey_ne_tempKey i j)

theorem devKeyAt_gpuMemKey {i j : ℕ} (h : devKeyAt (gpuMemKey i) j) : j = i := by
  rcases h with h | h | h
  · exact absurd h.symm (gpuKey_ne_gpuMemKey j i)
  · exact (gpuMemKey_inj h).symm
  · exact absurd h (gpuMemKey_ne_tempKey i j)

theorem devKeyAt_tempKey {i j : ℕ} (h : devKeyAt (tempKey i) j) : j = i := by
  rcases h with h | h | h
  · exact absurd h.symm (gpuKey_ne_tempKey j i)
  · exact absurd h.symm (gpuMemKey_ne_tempKey j i)
  · exact (tempKey_inj h).symm

theorem alertStep_mem_ne {k2 k : String} (h : k2 ≠ k) (sev : Severity) (v t : ℚ)
    (s : EvalState) : (k2 ∈ (alertStep k sev v t s).alerts ↔ k2 ∈ s.alerts) := by
  unfold alertStep
  split_ifs <;> simp [h]

theorem alertStep_eventsFor_ne {k2 k : String} (h : k2 ≠ k) (sev : Severity) (v t : ℚ)
    (s : EvalState) : eventsFor k2 (alertStep k sev v t s).events = eventsFor k2 s.events := by
  unfold alertStep
  split_ifs <;> simp [eventsFor, List.filter_append, Ne.symm h]

theorem alertStep_mem_self (k : String) (sev : Severity) (v t : ℚ) (s : EvalState) :
    (k ∈ (alertStep k sev v t s).alerts ↔
      ((v ≥ t ∧ k ∉ s.alerts) ∨ (k ∈ s.alerts ∧ ¬(v < t * (9 / 10))))) := by
  unfold alertStep
  split_ifs with h1 h2
  · simp [h1]
  · simp only [Finset.mem_erase, ne_eq, not_true_eq_false, false_and, false_iff]
    tauto
  · tauto

theorem alertStep_eventsFor_self (k : String) (sev : Severity) (v t : ℚ) (s : EvalState) :
    eventsFor k (alertStep k sev v t s).events =
      eventsFor k s.events ++
        (if v ≥ t ∧ k ∉ s.alerts then [⟨k, sev, v⟩] else []) := by
  unfold alertStep
  split_ifs with h1 h2 <;> simp [eventsFor, List.filter_append, h1]

theorem tempStep_mem_ne {k2 k : String} (h : k2 ≠ k) (temp : Option ℚ) (t : ℚ)
    (s : EvalState) : (k2 ∈ (tempStep k temp t s).alerts ↔ k2 ∈ s.alerts) := by
  cases temp with
  | none => simp [tempStep, h]
  | some v =>
    simp only [tempStep]
    split_ifs <;> simp [h]

theorem tempStep_eventsFor_ne {k2 k : String} (h : k2 ≠ k) (temp : Option ℚ) (t : ℚ)
    (s : EvalState) : eventsFor k2 (tempStep k temp t s).events = eventsFor k2 s.events := by
  cases temp with
  | none => simp [tempStep]
  | some v =>
    simp only [tempStep]
    split_ifs <;> simp [eventsFor, List.filter_append, Ne.symm h]

theorem tempStep_mem_self (k : String) (temp : Option ℚ) (t : ℚ) (s : EvalState) :
    (k ∈ (tempStep k temp t s).alerts ↔
      (∃ v, temp = some v ∧
        ((v ≠ 0 ∧ v ≥ t ∧ k ∉ s.alerts) ∨
         (k ∈ s.alerts ∧ v ≠ 0 ∧ ¬(v < t * (9 / 10)))))) := by
  cases temp with
  | none => simp [tempStep]
  | some v =>
    simp only [tempStep]
    split_ifs with h1 h2
    · simp [h1]
    · simp only [Finset.mem_erase, ne_eq, not_true_eq_false, false_and, false_iff,
        Option.some.injEq, exists_eq_left, exists_eq_left', not_or]
      tauto
    · simp only [Option.some.injEq, exists_eq_left, exists_eq_left', ne_eq]
      tauto

theorem tempStep_eventsFor_self (k : String) (temp : Option ℚ) (t : ℚ) (s : EvalState) :
    eventsFor k (tempStep k temp t s).events =
      eventsFor k s.events ++
        (match temp with
         | some v =>
           if v ≠ 0 ∧ v ≥ t ∧ k ∉ s.alerts then [⟨k, Severity.error, v⟩] else []
         | none => []) := by
  cases temp with
  | none => simp [tempStep]
  | some v =>
    simp only [tempStep]
    split_ifs with h1 h2 <;> simp [eventsFor, List.filter_append, h1]

theorem gpuStep_mem_ne {k : String} {i : ℕ} (h : ¬devKeyAt k i) (th : ThresholdConfig)
    (g : GpuWithMetrics) (s : EvalState) :
    (k ∈ (gpuStep th i g s).alerts ↔ k ∈ s.alerts) := by
  have h1 : k ≠ gpuKey i := fun e => h (Or.inl e)
  have h2 : k ≠ gpuMemKey i := fun e => h (Or.inr (Or.inl e))
  have h3 : k ≠ tempKey i := fun e => h (Or.inr (Or.inr e))
  unfold gpuStep
  rw [tempStep_mem_ne h3, alertStep_mem_ne h2, alertStep_mem_ne h1]

theorem gpuStep_eventsFor_ne {k : String} {i : ℕ} (h : ¬devKeyAt k i) (th : ThresholdConfig)
    (g : GpuWithMetrics) (s : EvalState) :
    eventsFor k (gpuStep th i g s).events = eventsFor k s.events := by
  have h1 : k ≠ gpuKey i := fun e => h (Or.inl e)
  have h2 : k ≠ gpuMemKey i := fun e => h (Or.inr (Or.inl e))
  have h3 : k ≠ tempKey i := fun e => h (Or.inr (Or.inr e))
  unfold gpuStep
  rw [tempStep_eventsFor_ne h3, alertStep_eventsFor_ne h2, alertStep_eventsFor_ne h1]

theorem gpuStep_mem_gpuKey (th : ThresholdConfig) (i : ℕ) (g : GpuWithMetrics) (s : EvalState) :
    (gpuKey i ∈ (gpuStep th i g s).alerts ↔
      ((g.current.gpu_utilization ≥ th.gpu ∧ gpuKey i ∉ s.alerts) ∨
       (gpuKey i ∈ s.alerts ∧ ¬(g.current.gpu_utilization < th.gpu * (9 / 10))))) := by
  unfold gpuStep
  rw [tempStep_mem_ne (gpuKey_ne_tempKey i i), alertStep_mem_ne (gpuKey_ne_gpuMemKey i i),
    alertStep_mem_self]

theorem gpuStep_eventsFor_gpuKey (th : ThresholdConfig) (i : ℕ) (g : GpuWithMetrics)
    (s : EvalState) :
    eventsFor (gpuKey i) (gpuStep th i g s).events =
      eventsFor (gpuKey i) s.events ++
        (if g.current.gpu_utilization ≥ th.gpu ∧ gpuKey i ∉ s.alerts
         then [⟨gpuKey i, Severity.warning, g.current.gpu_utilization⟩] else []) := by
  unfold gpuStep
  rw [tempStep_eventsFor_ne (gpuKey_ne_tempKey i i),
    alertStep_eventsFor_ne (gpuKey_ne_gpuMemKey i i), alertStep_eventsFor_self]

theorem gpuStep_mem_gpuMemKey (th : ThresholdConfig) (i : ℕ) (g : GpuWithMetrics)
    (s : EvalState) :
    (gpuMemKey i ∈ (gpuStep th i g s).alerts ↔
      ((g.current.memory_utilization ≥ th.gpuMemory ∧ gpuMemKey i ∉ s.alerts) ∨
       (gpuMemKey i ∈ s.alerts ∧ ¬(g.current.memory_utilization < th.gpuMemory * (9 / 10))))) := by
  unfold gpuStep
  rw [tempStep_mem_ne (gpuMemKey_ne_tempKey i i), alertStep_mem_self]
  simp only [alertStep_mem_ne (Ne.symm (gpuKey_ne_gpuMemKey i i))]

theorem gpuStep_eventsFor_gpuMemKey (th : ThresholdConfig) (i : ℕ) (g : GpuWithMetrics)
    (s : EvalState) :
    eventsFor (gpuMemKey i) (gpuStep th i g s).events =
      eventsFor (gpuMemKey i) s.events ++
        (if g.current.memory_utilization ≥ th.gpuMemory ∧ gpuMemKey i ∉ s.alerts
         then [⟨gpuMemKey i, Severity.warning, g.current.memory_utilization⟩] else []) := by
  unfold gpuStep
  rw [tempStep_eventsFor_ne (gpuMemKey_ne_tempKey i i), alertStep_eventsFor_self]
  simp only [alertStep_eventsFor_ne (Ne.symm (gpuKey_ne_gpuMemKey i i)),
    alertStep_mem_ne (Ne.symm (gpuKey_ne_gpuMemKey i i))]

theorem gpuStep_mem_tempKey (th : ThresholdConfig) (i : ℕ) (g : GpuWithMetrics)
    (s : EvalState) :
    (tempKey i ∈ (gpuStep th i g s).alerts ↔
      (∃ v, g.current.temperature_celsius = some v ∧
        ((v ≠ 0 ∧ v ≥ th.temperature ∧ tempKey i ∉ s.alerts) ∨
         (tempKey i ∈ s.alerts ∧ v ≠ 0 ∧ ¬(v < th.temperature * (9 / 10)))))) := by
  unfold gpuStep
  rw [tempStep_mem_self]
  simp only [alertStep_mem_ne (Ne.symm (gpuKey_ne_tempKey i i)),
    alertStep_mem_ne (Ne.symm (gpuMemKey_ne_tempKey i i))]

theorem gpuStep_eventsFor_tempKey (th : ThresholdConfig) (i : ℕ) (g : GpuWithMetrics)
    (s : EvalState) :
    eventsFor (tempKey i) (gpuStep th i g s).events =
      eventsFor (tempKey i) s.events ++
        (match g.current.temperature_celsius with
         | some v =>
           if v ≠ 0 ∧ v ≥ th.temperature ∧ tempKey i ∉ s.alerts
           then [⟨tempKey i, Severity.error, v⟩] else []
         | none => []) := by
  unfold gpuStep
  rw [tempStep_eventsFor_self]
  simp only [alertStep_eventsFor_ne (Ne.symm (gpuKey_ne_tempKey i i)),
    alertStep_eventsFor_ne (Ne.symm (gpuMemKey_ne_tempKey i i)),
    alertStep_mem_ne (Ne.symm (gpuKey_ne_tempKey i i)),
    alertStep_mem_ne (Ne.symm (gpuMemKey_ne_tempKey i i))]

theorem gpuAlertsAux_append (th : ThresholdConfig) (l1 l2 : List GpuWithMetrics) :
    ∀ (n : ℕ) (s : EvalState),
    gpuAlertsAux th n (l1 ++ l2) s = gpuAlertsAux th (n + l1.length) l2 (gpuAlertsAux th n l1 s) := by
  induction l1 with
  | nil => intro n s; simp [gpuAlertsAux]
  | cons g rest ih =>
    intro n s
    have e : n + (rest.length + 1) = n + 1 + rest.length := by omega
    simp only [List.cons_append, gpuAlertsAux, List.length_cons, e]
    exact ih (n + 1) (gpuStep th n g s)

theorem gpuAlertsAux_ne {k : String} (th : ThresholdConfig) :
    ∀ (l : List GpuWithMetrics) (n : ℕ) (s : EvalState),
    (∀ j, n ≤ j → j < n + l.length → ¬devKeyAt k j) →
    ((k ∈ (gpuAlertsAux th n l s).alerts ↔ k ∈ s.alerts) ∧
      eventsFor k (gpuAlertsAux th n l s).events = eventsFor k s.events) := by
  intro l
  induction l with
  | nil => intro n s _; exact ⟨Iff.rfl, rfl⟩
  | cons g rest ih =>
    intro n s hk
    have h0 : ¬devKeyAt k n := hk n le_rfl (by simp only [List.length_cons]; omega)
    obtain ⟨m1, e1⟩ := ih (n + 1) (gpuStep th n g s)
      (fun j hj1 hj2 => hk j (by omega) (by simp only [List.length_cons]; omega))
    simp only [gpuAlertsAux]
    exact ⟨m1.trans (gpuStep_mem_ne h0 th g s), e1.trans (gpuStep_eventsFor_ne h0 th g s)⟩

theorem gpuAlertsAux_split (th : ThresholdConfig) (l : List GpuWithMetrics) (i : ℕ)
    (g : GpuWithMetrics) (hget : l[i]? = some g) (s : EvalState) :
    gpuAlertsAux th 0 l s =
      gpuAlertsAux th (i + 1) (l.drop (i + 1))
        (gpuStep th i g (gpuAlertsAux th 0 (l.take i) s)) := by
  have hi : i < l.length := by
    by_contra hc
    rw [List.getElem?_eq_none (by omega)] at hget
    exact Option.noConfusion hget
  have he : l[i] = g := by
    rw [List.getElem?_eq_getElem hi] at hget
    exact Option.some.inj hget
  have htk : (l.take i).length = i := by
    rw [List.length_take]; omega
  conv_lhs => rw [← List.take_append_drop i l]
  rw [gpuAlertsAux_append, List.drop_eq_getElem_cons hi, he]
  simp only [gpuAlertsAux, htk, Nat.zero_add]

theorem gpuAlertsAux_gpuKey (th : ThresholdConfig) (l : List GpuWithMetrics) (i : ℕ)
    (g : GpuWithMetrics) (hget : l[i]? = some g) (s : EvalState) :
    ((gpuKey i ∈ (gpuAlertsAux th 0 l s).alerts ↔
      ((g.current.gpu_utilization ≥ th.gpu ∧ gpuKey i ∉ s.alerts) ∨
       (gpuKey i ∈ s.alerts ∧ ¬(g.current.gpu_utilization < th.gpu * (9 / 10))))) ∧
     eventsFor (gpuKey i) (gpuAlertsAux th 0 l s).events =
       eventsFor (gpuKey i) s.events ++
         (if g.current.gpu_utilization ≥ th.gpu ∧ gpuKey i ∉ s.alerts
          then [⟨gpuKey i, Severity.warning, g.current.gpu_utilization⟩] else [])) := by
  rw [gpuAlertsAux_split th l i g hget s]
  obtain ⟨m2, e2⟩ := @gpuAlertsAux_ne (gpuKey i) th (l.drop (i + 1)) (i + 1)
    (gpuStep th i g (gpuAlertsAux th 0 (l.take i) s))
    (fun j hj1 _ hd => by have := devKeyAt_gpuKey hd; omega)
  obtain ⟨m1, e1⟩ := @gpuAlertsAux_ne (gpuKey i) th (l.take i) 0 s
    (fun j _ hj2 hd => by
      have := devKeyAt_gpuKey hd
      have hlen : (l.take i).length ≤ i := by rw [List.length_take]; omega
      omega)
  constructor
  · rw [m2, gpuStep_mem_gpuKey]
    simp only [m1]
  · rw [e2, gpuStep_eventsFor_gpuKey, e1]
    simp only [m1]

theorem gpuAlertsAux_gpuMemKey (th : ThresholdConfig) (l : List GpuWithMetrics) (i : ℕ)
    (g : GpuWithMetrics) (hget : l[i]? = some g) (s : EvalState) :
    ((gpuMemKey i ∈ (gpuAlertsAux th 0 l s).alerts ↔
      ((g.current.memory_utilization ≥ th.gpuMemory ∧ gpuMemKey i ∉ s.alerts) ∨
       (gpuMemKey i ∈ s.alerts ∧ ¬(g.current.memory_utilization < th.gpuMemory * (9 / 10))))) ∧
     eventsFor (gpuMemKey i) (gpuAlertsAux th 0 l s).events =
       eventsFor (gpuMemKey i) s.events ++
         (if g.current.memory_utilization ≥ th.gpuMemory ∧ gpuMemKey i ∉ s.alerts
          then [⟨gpuMemKey i, Severity.warning, g.current.memory_utilization⟩] else [])) := by
  rw [gpuAlertsAux_split th l i g hget s]
  obtain ⟨m2, e2⟩ := @gpuAlertsAux_ne (gpuMemKey i) th (l.drop (i + 1)) (i + 1)
    (gpuStep th i g (gpuAlertsAux th 0 (l.take i) s))
    (fun j hj1 _ hd => by have := devKeyAt_gpuMemKey hd; omega)
  obtain ⟨m1, e1⟩ := @gpuAlertsAux_ne (gpuMemKey i) th (l.take i) 0 s
    (fun j _ hj2 hd => by
      have := devKeyAt_gpuMemKey hd
      have hlen : (l.take i).length ≤ i := by rw [List.length_take]; omega
      omega)
  constructor
  · rw [m2, gpuStep_mem_gpuMemKey]
    simp only [m1]
  · rw [e2, gpuStep_eventsFor_gpuMemKey, e1]
    simp only [m1]

theorem gpuAlertsAux_tempKey (th : ThresholdConfig) (l : List GpuWithMetrics) (i : ℕ)
    (g : GpuWithMetrics) (hget : l[i]? = some g) (s : EvalState) :
    ((tempKey i ∈ (gpuAlertsAux th 0 l s).alerts ↔
      (∃ v, g.current.temperature_celsius = some v ∧
        ((v ≠ 0 ∧ v ≥ th.temperature ∧ tempKey i ∉ s.alerts) ∨
         (tempKey i ∈ s.alerts ∧ v ≠ 0 ∧ ¬(v < th.temperature * (9 / 10)))))) ∧
     eventsFor (tempKey i) (gpuAlertsAux th 0 l s).events =
       eventsFor (tempKey i) s.events ++
         (match g.current.temperature_celsius with
          | some v =>
            if v ≠ 0 ∧ v ≥ th.temperature ∧ tempKey i ∉ s.alerts
            then [⟨tempKey i, Severity.error, v⟩] else []
          | none => [])) := by
  rw [gpuAlertsAux_split th l i g hget s]
  obtain ⟨m2, e2⟩ := @gpuAlertsAux_ne (tempKey i) th (l.drop (i + 1)) (i + 1)
    (gpuStep th i g (gpuAlertsAux th 0 (l.take i) s))
    (fun j hj1 _ hd => by have := devKeyAt_tempKey hd; omega)
  obtain ⟨m1, e1⟩ := @gpuAlertsAux_ne (tempKey i) th (l.take i) 0 s
    (fun j _ hj2 hd => by
      have := devKeyAt_tempKey hd
      have hlen : (l.take i).length ≤ i := by rw [List.length_take]; omega
      omega)
  constructor
  · rw [m2, gpuStep_mem_tempKey]
    simp only [m1]
  · rw [e2, gpuStep_eventsFor_tempKey, e1]
    simp only [m1]

theorem checkThresholds_cpu_char (th : ThresholdConfig) (data : AllMetrics) (A : Finset String) :
    (("cpu" ∈ (checkThresholds th data A).alerts ↔
      ((data.system.cpu_usage ≥ th.cpu ∧ "cpu" ∉ A) ∨
       ("cpu" ∈ A ∧ ¬(data.system.cpu_usage < th.cpu * (9 / 10))))) ∧
     eventsFor "cpu" (checkThresholds th data A).events =
       (if data.system.cpu_usage ≥ th.cpu ∧ "cpu" ∉ A
        then [⟨"cpu", Severity.warning, data.system.cpu_usage⟩] else [])) := by
  unfold checkThresholds
  obtain ⟨m4, e4⟩ := @gpuAlertsAux_ne "cpu" th data.gpus 0
    (alertStep "swap" Severity.warning (swapPercent data.system) th.swap
      (alertStep "memory" Severity.warning data.system.memory_usage_percent th.memory
        (alertStep "cpu" Severity.warning data.system.cpu_usage th.cpu
          { alerts := A, events := [] })))
    (fun j _ _ => cpu_not_devKeyAt j)
  constructor
  · rw [m4, alertStep_mem_ne (by decide : ("cpu" : String) ≠ "swap"),
      alertStep_mem_ne (by decide : ("cpu" : String) ≠ "memory"), alertStep_mem_self]
  · rw [e4, alertStep_eventsFor_ne (by decide : ("cpu" : String) ≠ "swap"),
      alertStep_eventsFor_ne (by decide : ("cpu" : String) ≠ "memory"),
      alertStep_eventsFor_self]
    simp [eventsFor]

theorem checkThresholds_memory_char (th : ThresholdConfig) (data : AllMetrics) (A : Finset String) :
    (("memory" ∈ (checkThresholds th data A).alerts ↔
      ((data.system.memory_usage_percent ≥ th.memory ∧ "memory" ∉ A) ∨
       ("memory" ∈ A ∧ ¬(data.system.memory_usage_percent < th.memory * (9 / 10))))) ∧
     eventsFor "memory" (checkThresholds th data A).events =
       (if data.system.memory_usage_percent ≥ th.memory ∧ "memory" ∉ A
        then [⟨"memory", Severity.warning, data.system.memory_usage_percent⟩] else [])) := by
  unfold checkThresholds
  obtain ⟨m4, e4⟩ := @gpuAlertsAux_ne "memory" th data.gpus 0
    (alertStep "swap" Severity.warning (swapPercent data.system) th.swap
      (alertStep "memory" Severity.warning data.system.memory_usage_percent th.memory
        (alertStep "cpu" Severity.warning data.system.cpu_usage th.cpu
          { alerts := A, events := [] })))
    (fun j _ _ => memory_not_devKeyAt j)
  constructor
  · rw [m4, alertStep_mem_ne (by decide : ("memory" : String) ≠ "swap"), alertStep_mem_self]
    simp only [alertStep_mem_ne (by decide : ("memory" : String) ≠ "cpu")]
  · rw [e4, alertStep_eventsFor_ne (by decide : ("memory" : String) ≠ "swap"),
      alertStep_eventsFor_self,
      alertStep_eventsFor_ne (by decide : ("memory" : String) ≠ "cpu")]
    simp only [alertStep_mem_ne (by decide : ("memory" : String) ≠ "cpu")]
    simp [eventsFor]

theorem checkThresholds_swap_char (th : ThresholdConfig) (data : AllMetrics) (A : Finset String) :
    (("swap" ∈ (checkThresholds th data A).alerts ↔
      ((swapPercent data.system ≥ th.swap ∧ "swap" ∉ A) ∨
       ("swap" ∈ A ∧ ¬(swapPercent data.system < th.swap * (9 / 10))))) ∧
     eventsFor "swap" (checkThresholds th data A).events =
       (if swapPercent data.system ≥ th.swap ∧ "swap" ∉ A
        then [⟨"swap", Severity.warning, swapPercent data.system⟩] else [])) := by
  unfold checkThresholds
  obtain ⟨m4, e4⟩ := @gpuAlertsAux_ne "swap" th data.gpus 0
    (alertStep "swap" Severity.warning (swapPercent data.system) th.swap
      (alertStep "memory" Severity.warning data.system.memory_usage_percent th.memory
        (alertStep "cpu" Severity.warning data.system.cpu_usage th.cpu
          { alerts := A, events := [] })))
    (fun j _ _ => swap_not_devKeyAt j)
  constructor
  · rw [m4, alertStep_mem_self]
    simp only [alertStep_mem_ne (by decide : ("swap" : String) ≠ "memory"),
      alertStep_mem_ne (by decide : ("swap" : String) ≠ "cpu")]
  · rw [e4, alertStep_eventsFor_self,
      alertStep_eventsFor_ne (by decide : ("swap" : String) ≠ "memory"),
      alertStep_eventsFor_ne (by decide : ("swap" : String) ≠ "cpu")]
    simp only [alertStep_mem_ne (by decide : ("swap" : String) ≠ "memory"),
      alertStep_mem_ne (by decide : ("swap" : String) ≠ "cpu")]
    simp [eventsFor]

theorem checkThresholds_gpu_char (th : ThresholdConfig) (data : AllMetrics) (A : Finset String)
    (i : ℕ) (g : GpuWithMetrics) (hget : data.gpus[i]? = some g) :
    ((gpuKey i ∈ (checkThresholds th data A).alerts ↔
      ((g.current.gpu_utilization ≥ th.gpu ∧ gpuKey i ∉ A) ∨
       (gpuKey i ∈ A ∧ ¬(g.current.gpu_utilization < th.gpu * (9 / 10))))) ∧
     eventsFor (gpuKey i) (checkThresholds th data A).events =
       (if g.current.gpu_utilization ≥ th.gpu ∧ gpuKey i ∉ A
        then [⟨gpuKey i, Severity.warning, g.current.gpu_utilization⟩] else [])) := by
  unfold checkThresholds
  obtain ⟨mm, ee⟩ := gpuAlertsAux_gpuKey th data.gpus i g hget
    (alertStep "swap" Severity.warning (swapPercent data.system) th.swap
      (alertStep "memory" Severity.warning data.system.memory_usage_percent th.memory
        (alertStep "cpu" Severity.warning data.system.cpu_usage th.cpu
          { alerts := A, events := [] })))
  constructor
  · rw [mm]
    simp only [alertStep_mem_ne (Ne.symm (swap_ne_gpuKey i)),
      alertStep_mem_ne (Ne.symm (memory_ne_gpuKey i)),
      alertStep_mem_ne (Ne.symm (cpu_ne_gpuKey i))]
  · rw [ee]
    simp only [alertStep_eventsFor_ne (Ne.symm (swap_ne_gpuKey i)),
      alertStep_eventsFor_ne (Ne.symm (memory_ne_gpuKey i)),
      alertStep_eventsFor_ne (Ne.symm (cpu_ne_gpuKey i)),
      alertStep_mem_ne (Ne.symm (swap_ne_gpuKey i)),
      alertStep_mem_ne (Ne.symm (memory_ne_gpuKey i)),
      alertStep_mem_ne (Ne.symm (cpu_ne_gpuKey i))]
    simp [eventsFor]

theorem checkThresholds_gpuMem_char (th : ThresholdConfig) (data : AllMetrics) (A : Finset String)
    (i : ℕ) (g : GpuWithMetrics) (hget : data.gpus[i]? = some g) :
    ((gpuMemKey i ∈ (checkThresholds th data A).alerts ↔
      ((g.current.memory_utilization ≥ th.gpuMemory ∧ gpuMemKey i ∉ A) ∨
       (gpuMemKey i ∈ A ∧ ¬(g.current.memory_utilization < th.gpuMemory * (9 / 10))))) ∧
     eventsFor (gpuMemKey i) (checkThresholds th data A).events =
       (if g.current.memory_utilization ≥ th.gpuMemory ∧ gpuMemKey i ∉ A
        then [⟨gpuMemKey i, Severity.warning, g.current.memory_utilization⟩] else [])) := by
  unfold checkThresholds
  obtain ⟨mm, ee⟩ := gpuAlertsAux_gpuMemKey th data.gpus i g hget
    (alertStep "swap" Severity.warning (swapPercent data.system) th.swap
      (alertStep "memory" Severity.warning data.system.memory_usage_percent th.memory
        (alertStep "cpu" Severity.warning data.system.cpu_usage th.cpu
          { alerts := A, events := [] })))
  constructor
  · rw [mm]
    simp only [alertStep_mem_ne (Ne.symm (swap_ne_gpuMemKey i)),
      alertStep_mem_ne (Ne.symm (memory_ne_gpuMemKey i)),
      alertStep_mem_ne (Ne.symm (cpu_ne_gpuMemKey i))]
  · rw [ee]
    simp only [alertStep_eventsFor_ne (Ne.symm (swap_ne_gpuMemKey i)),
      alertStep_eventsFor_ne (Ne.symm (memory_ne_gpuMemKey i)),
      alertStep_eventsFor_ne (Ne.symm (cpu_ne_gpuMemKey i)),
      alertStep_mem_ne (Ne.symm (swap_ne_gpuMemKey i)),
      alertStep_mem_ne (Ne.symm (memory_ne_gpuMemKey i)),
      alertStep_mem_ne (Ne.symm (cpu_ne_gpuMemKey i))]
    simp [eventsFor]

theorem checkThresholds_temp_char (th : ThresholdConfig) (data : AllMetrics) (A : Finset String)
    (i : ℕ) (g : GpuWithMetrics) (hget : data.gpus[i]? = some g) :
    ((tempKey i ∈ (checkThresholds th data A).alerts ↔
      (∃ v, g.current.temperature_celsius = some v ∧
        ((v ≠ 0 ∧ v ≥ th.temperature ∧ tempKey i ∉ A) ∨
         (tempKey i ∈ A ∧ v ≠ 0 ∧ ¬(v < th.temperature * (9 / 10)))))) ∧
     eventsFor (tempKey i) (checkThresholds th data A).events =
       (match g.current.temperature_celsius with
        | some v =>
          if v ≠ 0 ∧ v ≥ th.temperature ∧ tempKey i ∉ A
          then [⟨tempKey i, Severity.error, v⟩] else []
        | none => [])) := by
  unfold checkThresholds
  obtain ⟨mm, ee⟩ := gpuAlertsAux_tempKey th data.gpus i g hget
    (alertStep "swap" Severity.warning (swapPercent data.system) th.swap
      (alertStep "memory" Severity.warning data.system.memory_usage_percent th.memory
        (alertStep "cpu" Severity.warning data.system.cpu_usage th.cpu
          { alerts := A, events := [] })))
  constructor
  · rw [mm]
    simp only [alertStep_mem_ne (Ne.symm (swap_ne_tempKey i)),
      alertStep_mem_ne (Ne.symm (memory_ne_tempKey i)),
      alertStep_mem_ne (Ne.symm (cpu_ne_tempKey i))]
  · rw [ee]
    simp only [alertStep_eventsFor_ne (Ne.symm (swap_ne_tempKey i)),
      alertStep_eventsFor_ne (Ne.symm (memory_ne_tempKey i)),
      alertStep_eventsFor_ne (Ne.symm (cpu_ne_tempKey i)),
      alertStep_mem_ne (Ne.symm (swap_ne_tempKey i)),
      alertStep_mem_ne (Ne.symm (memory_ne_tempKey i)),
      alertStep_mem_ne (Ne.symm (cpu_ne_tempKey i))]
    simp [eventsFor]

theorem rollAppend_foldl (xs : List ℚ) :
    xs.foldl rollAppend [] = xs.drop (xs.length - 60) := by
  induction xs using List.reverseRecOn with
  | nil => rfl
  | append_singleton ys y ih =>
    rw [List.foldl_append, List.foldl_cons, List.foldl_nil, ih]
    unfold rollAppend
    rw [List.length_drop, List.drop_drop]
    have e1 : ys.length - 60 + (ys.length - (ys.length - 60) - 59) = ys.length + 1 - 60 := by
      omega
    have e2 : ys.length + 1 - 60 ≤ ys.length := by omega
    have e3 : (ys ++ [y]).length - 60 = ys.length + 1 - 60 := by
      simp [List.length_append]
    rw [e1, e3, List.drop_append_of_le_length e2]

/-- C2: iterating the history append `[...prev.slice(-59), x]` from the
empty buffer over any value sequence `xs` yields a buffer of length
`min xs.length 60`, never exceeding 60, that holds exactly the most
recent `min xs.length 60` values in insertion order (the suffix of `xs`,
so the oldest values are the ones evicted). -/
theorem C2_rolling_history (xs : List ℚ) :
    (xs.foldl rollAppend []).length = min xs.length 60 ∧
    (xs.foldl rollAppend []).length ≤ 60 ∧
    xs.foldl rollAppend [] = xs.drop (xs.length - 60) := by
  refine ⟨?_, ?_, rollAppend_foldl xs⟩ <;>
    rw [rollAppend_foldl, List.length_drop] <;> omega

/-- C3 counterexample: with threshold 90 and an empty initial active set,
the value sequence [95, 95, 85, 95] produces exactly one AlertEvent, not
the two the claim asserts: 85 does not clear the alert (85 is not below
81 = 0.9 x 90), so the final 95 finds the key still active and stays
silent. -/
theorem C3_counterexample :
    (evalSeq DEFAULT_THRESHOLDS ∅ ([95, 95, 85, 95].map cpuSnapshot)).2.length = 1 ∧
    ¬((evalSeq DEFAULT_THRESHOLDS ∅ ([95, 95, 85, 95].map cpuSnapshot)).2.length = 2) := by
  decide

/-- C3 (amended): with threshold 90 (the default cpu threshold) and an
empty initial active set, [95, 95, 85, 95] yields exactly one AlertEvent
(at the first 95) and leaves the key active; [95, 80, 95] yields exactly
two AlertEvents with one silent clearing in between (after [95, 80] the
active set is empty while only the first event has been emitted). -/
theorem C3_amended :
    (evalSeq DEFAULT_THRESHOLDS ∅ ([95, 95, 85, 95].map cpuSnapshot)).2 =
      [⟨"cpu", Severity.warning, 95⟩] ∧
    "cpu" ∈ (evalSeq DEFAULT_THRESHOLDS ∅ ([95, 95, 85, 95].map cpuSnapshot)).1 ∧
    (evalSeq DEFAULT_THRESHOLDS ∅ ([95, 80, 95].map cpuSnapshot)).2 =
      [⟨"cpu", Severity.warning, 95⟩, ⟨"cpu", Severity.warning, 95⟩] ∧
    (evalSeq DEFAULT_THRESHOLDS ∅ ([95, 80].map cpuSnapshot)).2 =
      [⟨"cpu", Severity.warning, 95⟩] ∧
    (evalSeq DEFAULT_THRESHOLDS ∅ ([95, 80].map cpuSnapshot)).1 = ∅ := by
  decide

/-- C1 counterexample: at a concrete input where the claim's entry
condition holds (temperature metric of device 0 with current value 0,
threshold 0, key not active), the evaluator emits no AlertEvent and does
not add the key: the temperature branch guards on JS truthiness, so a
reading of exactly 0 is treated like a missing reading. -/
theorem C1_counterexample :
    (Metric.temp 0).value?
        { gpus := [{ info := { id := 0, name := "g", vendor := "v", memory_total_mb := 0 },
                     current := { gpu_utilization := 0, memory_utilization := 0,
                                  temperature_celsius := some 0 } }],
          system := { cpu_usage := 0, memory_usage_percent := 0, swap_used_mb := 0,
                      swap_total_mb := 0, disk_read_bytes_sec := 0, disk_write_bytes_sec := 0,
                      network_rx_bytes_sec := 0, network_tx_bytes_sec := 0 } } = some 0 ∧
    (0 : ℚ) ≥ ThresholdConfig.temperature
        { cpu := 90, memory := 85, swap := 75, gpu := 90, gpuMemory := 90, temperature := 0,
          diskIO := 500, networkIO := 100 } ∧
    (Metric.temp 0).key ∉ (∅ : Finset String) ∧
    (checkThresholds
        { cpu := 90, memory := 85, swap := 75, gpu := 90, gpuMemory := 90, temperature := 0,
          diskIO := 500, networkIO := 100 }
        { gpus := [{ info := { id := 0, name := "g", vendor := "v", memory_total_mb := 0 },
                     current := { gpu_utilization := 0, memory_utilization := 0,
                                  temperature_celsius := some 0 } }],
          system := { cpu_usage := 0, memory_usage_percent := 0, swap_used_mb := 0,
                      swap_total_mb := 0, disk_read_bytes_sec := 0, disk_write_bytes_sec := 0,
                      network_rx_bytes_sec := 0, network_tx_bytes_sec := 0 } }
        ∅).events = [] ∧
    (Metric.temp 0).key ∉
      (checkThresholds
        { cpu := 90, memory := 85, swap := 75, gpu := 90, gpuMemory := 90, temperature := 0,
          diskIO := 500, networkIO := 100 }
        { gpus := [{ info := { id := 0, name := "g", vendor := "v", memory_total_mb := 0 },
                     current := { gpu_utilization := 0, memory_utilization := 0,
                                  temperature_celsius := some 0 } }],
          system := { cpu_usage := 0, memory_usage_percent := 0, swap_used_mb := 0,
                      swap_total_mb := 0, disk_read_bytes_sec := 0, disk_write_bytes_sec := 0,
                      network_rx_bytes_sec := 0, network_tx_bytes_sec := 0 } }
        ∅).alerts := by
  decide

/-- C1 (amended): for every tracked metric `m` with current value `v`,
threshold `t` and active set `A`, one evaluation of a snapshot behaves
per the claim - emit exactly one AlertEvent (severity warning, or error
for the temperature class) and add the key when `v ≥ t` and the key is
not active; silently remove the key when `v < t * 0.9` and the key is
active; otherwise change nothing and emit nothing - except that a
temperature reading of exactly 0 is treated like a missing reading (JS
falsiness): it never emits and never adds, and the key always ends up
inactive. -/
theorem C1_amended_per_metric (th : ThresholdConfig) (data : AllMetrics) (A : Finset String)
    (m : Metric) (v : ℚ) (hv : m.value? data = some v) :
    (¬(m.isTemp = true ∧ v = 0) →
      ((v ≥ m.threshold th ∧ m.key ∉ A →
         m.key ∈ (checkThresholds th data A).alerts ∧
         eventsFor m.key (checkThresholds th data A).events =
           [⟨m.key, if m.isTemp = true then Severity.error else Severity.warning, v⟩]) ∧
       (v < m.threshold th * (9 / 10) ∧ m.key ∈ A →
         m.key ∉ (checkThresholds th data A).alerts ∧
         eventsFor m.key (checkThresholds th data A).events = []) ∧
       (¬(v ≥ m.threshold th ∧ m.key ∉ A) ∧ ¬(v < m.threshold th * (9 / 10) ∧ m.key ∈ A) →
         (m.key ∈ (checkThresholds th data A).alerts ↔ m.key ∈ A) ∧
         eventsFor m.key (checkThresholds th data A).events = []))) ∧
    (m.isTemp = true ∧ v = 0 →
      m.key ∉ (checkThresholds th data A).alerts ∧
      eventsFor m.key (checkThresholds th data A).events = []) := by
  cases m with
  | cpu =>
    simp only [Metric.value?, Option.some.injEq] at hv
    subst hv
    obtain ⟨cm, ce⟩ := checkThresholds_cpu_char th data A
    simp only [Metric.key, Metric.threshold, Metric.isTemp, Bool.false_eq_true, false_and,
      not_false_eq_true, if_false, IsEmpty.forall_iff, and_true, true_implies]
    refine ⟨fun h => ⟨cm.mpr (Or.inl h), by rw [ce, if_pos h]⟩, fun h => ?_, fun h => ?_⟩
    · refine ⟨fun hc => ?_, by rw [ce, if_neg (fun hc => hc.2 h.2)]⟩
      rcases cm.mp hc with h1 | h1
      · exact h1.2 h.2
      · exact h1.2 h.1
    · refine ⟨?_, by rw [ce, if_neg h.1]⟩
      rw [cm]
      constructor
      · rintro (h1 | h1)
        · exact absurd h1 h.1
        · exact h1.1
      · intro hA
        exact Or.inr ⟨hA, fun hlt => h.2 ⟨hlt, hA⟩⟩
  | memory =>
    simp only [Metric.value?, Option.some.injEq] at hv
    subst hv
    obtain ⟨cm, ce⟩ := checkThresholds_memory_char th data A
    simp only [Metric.key, Metric.threshold, Metric.isTemp, Bool.false_eq_true, false_and,
      not_false_eq_true, if_false, IsEmpty.forall_iff, and_true, true_implies]
    refine ⟨fun h => ⟨cm.mpr (Or.inl h), by rw [ce, if_pos h]⟩, fun h => ?_, fun h => ?_⟩
    · refine ⟨fun hc => ?_, by rw [ce, if_neg (fun hc => hc.2 h.2)]⟩
      rcases cm.mp hc with h1 | h1
      · exact h1.2 h.2
      · exact h1.2 h.1
    · refine ⟨?_, by rw [ce, if_neg h.1]⟩
      rw [cm]
      constructor
      · rintro (h1 | h1)
        · exact absurd h1 h.1
        · exact h1.1
      · intro hA
        exact Or.inr ⟨hA, fun hlt => h.2 ⟨hlt, hA⟩⟩
  | swap =>
    simp only [Metric.value?, Option.some.injEq] at hv
    subst hv
    obtain ⟨cm, ce⟩ := checkThresholds_swap_char th data A
    simp only [Metric.key, Metric.threshold, Metric.isTemp, Bool.false_eq_true, false_and,
      not_false_eq_true, if_false, IsEmpty.forall_iff, and_true, true_implies]
    refine ⟨fun h => ⟨cm.mpr (Or.inl h), by rw [ce, if_pos h]⟩, fun h => ?_, fun h => ?_⟩
    · refine ⟨fun hc => ?_, by rw [ce, if_neg (fun hc => hc.2 h.2)]⟩
      rcases cm.mp hc with h1 | h1
      · exact h1.2 h.2
      · exact h1.2 h.1
    · refine ⟨?_, by rw [ce, if_neg h.1]⟩
      rw [cm]
      constructor
      · rintro (h1 | h1)
        · exact absurd h1 h.1
        · exact h1.1
      · intro hA
        exact Or.inr ⟨hA, fun hlt => h.2 ⟨hlt, hA⟩⟩
  | gpuUtil i =>
    simp only [Metric.value?] at hv
    cases hg : data.gpus[i]? with
    | none => rw [hg] at hv; exact absurd hv (by simp)
    | some g =>
      rw [hg] at hv
      simp only [Option.map_some', Option.some.injEq] at hv
      obtain ⟨cm, ce⟩ := checkThresholds_gpu_char th data A i g hg
      rw [hv] at cm ce
      simp only [Metric.key, Metric.threshold, Metric.isTemp, Bool.false_eq_true, false_and,
        not_false_eq_true, if_false, IsEmpty.forall_iff, and_true, true_implies]
      refine ⟨fun h => ⟨cm.mpr (Or.inl h), by rw [ce, if_pos h]⟩, fun h => ?_, fun h => ?_⟩
      · refine ⟨fun hc => ?_, by rw [ce, if_neg (fun hc => hc.2 h.2)]⟩
        rcases cm.mp hc with h1 | h1
        · exact h1.2 h.2
        · exact h1.2 h.1
      · refine ⟨?_, by rw [ce, if_neg h.1]⟩
        rw [cm]
        constructor
        · rintro (h1 | h1)
          · exact absurd h1 h.1
          · exact h1.1
        · intro hA
          exact Or.inr ⟨hA, fun hlt => h.2 ⟨hlt, hA⟩⟩
  | gpuMem i =>
    simp only [Metric.value?] at hv
    cases hg : data.gpus[i]? with
    | none => rw [hg] at hv; exact absurd hv (by simp)
    | some g =>
      rw [hg] at hv
      simp only [Option.map_some', Option.some.injEq] at hv
      obtain ⟨cm, ce⟩ := checkThresholds_gpuMem_char th data A i g hg
      rw [hv] at cm ce
      simp only [Metric.key, Metric.threshold, Metric.isTemp, Bool.false_eq_true, false_and,
        not_false_eq_true, if_false, IsEmpty.forall_iff, and_true, true_implies]
      refine ⟨fun h => ⟨cm.mpr (Or.inl h), by rw [ce, if_pos h]⟩, fun h => ?_, fun h => ?_⟩
      · refine ⟨fun hc => ?_, by rw [ce, if_neg (fun hc => hc.2 h.2)]⟩
        rcases cm.mp hc with h1 | h1
        · exact h1.2 h.2
        · exact h1.2 h.1
      · refine ⟨?_, by rw [ce, if_neg h.1]⟩
        rw [cm]
        constructor
        · rintro (h1 | h1)
          · exact absurd h1 h.1
          · exact h1.1
        · intro hA
          exact Or.inr ⟨hA, fun hlt => h.2 ⟨hlt, hA⟩⟩
  | temp i =>
    simp only [Metric.value?] at hv
    cases hg : data.gpus[i]? with
    | none => rw [hg] at hv; exact absurd hv (by simp)
    | some g =>
      rw [hg] at hv
      simp only [Option.some_bind] at hv
      obtain ⟨cm, ce⟩ := checkThresholds_temp_char th data A i g hg
      rw [hv] at cm ce
      simp only [Option.some.injEq, exists_eq_left, exists_eq_left'] at cm
      dsimp only at ce
      simp only [Metric.key, Metric.threshold, Metric.isTemp, eq_self_iff_true, true_and,
        if_true]
      constructor
      · intro hz
        have hvz : v ≠ 0 := hz
        refine ⟨fun h => ⟨cm.mpr (Or.inl ⟨hvz, h⟩), ?_⟩, fun h => ?_, fun h => ?_⟩
        · rw [ce, if_pos ⟨hvz, h⟩]
        · refine ⟨fun hc => ?_, by rw [ce, if_neg (fun hc => hc.2.2 h.2)]⟩
          rcases cm.mp hc with h1 | h1
          · exact h1.2.2 h.2
          · exact h1.2.2 h.1
        · refine ⟨?_, by rw [ce, if_neg (fun hc => h.1 hc.2)]⟩
          rw [cm]
          constructor
          · rintro (h1 | h1)
            · exact absurd h1.2 h.1
            · exact h1.1
          · intro hA
            exact Or.inr ⟨hA, hvz, fun hlt => h.2 ⟨hlt, hA⟩⟩
      · intro hz
        have hvz : v = 0 := hz
        constructor
        · rw [cm]
          rintro (h1 | h1)
          · exact h1.1 hvz
          · exact h1.2.1 hvz
        · rw [ce, if_neg (fun hc => hc.1 hvz)]

/-- Witness for C1: at the default thresholds, a snapshot with cpu at 95
against threshold 90 and an empty active set takes the entry branch:
the key is added and exactly one warning event is emitted. -/
theorem C1_amended_witness :
    "cpu" ∈ (checkThresholds DEFAULT_THRESHOLDS (cpuSnapshot 95) ∅).alerts ∧
    eventsFor "cpu" (checkThresholds DEFAULT_THRESHOLDS (cpuSnapshot 95) ∅).events =
      [⟨"cpu", Severity.warning, 95⟩] := by
  have h := ((C1_amended_per_metric DEFAULT_THRESHOLDS (cpuSnapshot 95) ∅ Metric.cpu 95
    rfl).1 (by decide)).1 (by decide)
  simpa [Metric.key, Metric.isTemp] using h

/-- C6 counterexample: with a persisted swap threshold of 0 (the loader
performs no range validation) and zero total swap, the computed swap
percentage 0 satisfies `0 >= 0`, so the evaluator emits a swap alert and
adds the "swap" key even though no swap is configured - the claim's
"regardless of the configured swap threshold value" fails. -/
theorem C6_counterexample :
    (checkThresholds
        { cpu := 90, memory := 85, swap := 0, gpu := 90, gpuMemory := 90, temperature := 85,
          diskIO := 500, networkIO := 100 }
        (cpuSnapshot 0) ∅).events = [⟨"swap", Severity.warning, 0⟩] ∧
    "swap" ∈ (checkThresholds
        { cpu := 90, memory := 85, swap := 0, gpu := 90, gpuMemory := 90, temperature := 85,
          diskIO := 500, networkIO := 100 }
        (cpuSnapshot 0) ∅).alerts ∧
    (cpuSnapshot 0).system.swap_total_mb = 0 := by
  decide

/-- C6 (amended): provided the configured swap threshold is positive
(which every value reachable through the settings UI is), a snapshot with
zero total swap never leaves the "swap" key active and never emits a
swap event: the computed percentage is 0, which cannot reach a positive
threshold and always lies below the exit bound. -/
theorem C6_amended (th : ThresholdConfig) (data : AllMetrics) (A : Finset String)
    (htot : data.system.swap_total_mb = 0) (hpos : 0 < th.swap) :
    swapPercent data.system = 0 ∧
    "swap" ∉ (checkThresholds th data A).alerts ∧
    eventsFor "swap" (checkThresholds th data A).events = [] := by
  have hsp : swapPercent data.system = 0 := by simp [swapPercent, htot]
  obtain ⟨cm, ce⟩ := checkThresholds_swap_char th data A
  rw [hsp] at cm ce
  refine ⟨hsp, ?_, ?_⟩
  · rw [cm]
    rintro (⟨h1, _⟩ | ⟨_, h2⟩)
    · exact absurd h1 (not_le.mpr hpos)
    · exact h2 (by positivity)
  · rw [ce, if_neg (fun hc => absurd hc.1 (not_le.mpr hpos))]

/-- Witness for C6: default thresholds (swap threshold 75 > 0), a
snapshot with zero total swap and the "swap" key initially active. -/
theorem C6_amended_witness :
    swapPercent (cpuSnapshot 0).system = 0 ∧
    "swap" ∉ (checkThresholds DEFAULT_THRESHOLDS (cpuSnapshot 0) {"swap"}).alerts ∧
    eventsFor "swap" (checkThresholds DEFAULT_THRESHOLDS (cpuSnapshot 0) {"swap"}).events = [] :=
  C6_amended DEFAULT_THRESHOLDS (cpuSnapshot 0) {"swap"} rfl (by norm_num [DEFAULT_THRESHOLDS])

/-- C7 counterexample: one device at position 0 with a missing
temperature reading and the key "temp-0" initially active: evaluation
removes the key (the `!temp` clearing test is true for null), so the
key's membership does change, contrary to the claim. -/
theorem C7_counterexample :
    "temp-0" ∈ ({"temp-0"} : Finset String) ∧
    "temp-0" ∉ (checkThresholds DEFAULT_THRESHOLDS
        { gpus := [{ info := { id := 0, name := "g", vendor := "v", memory_total_mb := 0 },
                     current := { gpu_utilization := 0, memory_utilization := 0,
                                  temperature_celsius := none } }],
          system := (cpuSnapshot 0).system }
        {"temp-0"}).alerts ∧
    (checkThresholds DEFAULT_THRESHOLDS
        { gpus := [{ info := { id := 0, name := "g", vendor := "v", memory_total_mb := 0 },
                     current := { gpu_utilization := 0, memory_utilization := 0,
                                  temperature_celsius := none } }],
          system := (cpuSnapshot 0).system }
        {"temp-0"}).events = [] := by
  decide

/-- C7 (amended): a missing per-device temperature reading never emits an
AlertEvent for that device's temperature key, but it does not leave the
key's alert state untouched: the clearing branch treats the missing
reading as falsy and always removes the key from the active set. -/
theorem C7_amended (th : ThresholdConfig) (data : AllMetrics) (A : Finset String)
    (i : ℕ) (g : GpuWithMetrics) (hget : data.gpus[i]? = some g)
    (hmiss : g.current.temperature_celsius = none) :
    tempKey i ∉ (checkThresholds th data A).alerts ∧
    eventsFor (tempKey i) (checkThresholds th data A).events = [] := by
  obtain ⟨cm, ce⟩ := checkThresholds_temp_char th data A i g hget
  rw [hmiss] at cm ce
  constructor
  · rw [cm]
    rintro ⟨v, hv, _⟩
    exact Option.noConfusion hv
  · rw [ce]

/-- Witness for C7: the single device of the C7 counterexample snapshot,
with the key initially active. -/
theorem C7_amended_witness :
    tempKey 0 ∉ (checkThresholds DEFAULT_THRESHOLDS
        { gpus := [{ info := { id := 0, name := "g", vendor := "v", memory_total_mb := 0 },
                     current := { gpu_utilization := 0, memory_utilization := 0,
                                  temperature_celsius := none } }],
          system := (cpuSnapshot 0).system }
        {"temp-0"}).alerts ∧
    eventsFor (tempKey 0) ((checkThresholds DEFAULT_THRESHOLDS
        { gpus := [{ info := { id := 0, name := "g", vendor := "v", memory_total_mb := 0 },
                     current := { gpu_utilization := 0, memory_utilization := 0,
                                  temperature_celsius := none } }],
          system := (cpuSnapshot 0).system }
        {"temp-0"}).events) = [] :=
  C7_amended DEFAULT_THRESHOLDS _ {"temp-0"} 0 _ rfl rfl

/-- C9 counterexample: a single device whose stable identifier field is 7
sits at position 0 of the gpu array; at 95% utilization against the
default threshold 90 it alerts under key "gpu-0" - the forEach index -
and no key built from its identifier ("gpu-7") is ever active, so the
claim's "keys built from the device's stable identifier" fails. -/
theorem C9_counterexample :
    (checkThresholds DEFAULT_THRESHOLDS
        { gpus := [{ info := { id := 7, name := "A", vendor := "v", memory_total_mb := 0 },
                     current := { gpu_utilization := 95, memory_utilization := 0,
                                  temperature_celsius := none } }],
          system := (cpuSnapshot 0).system }
        ∅).events = [⟨"gpu-0", Severity.warning, 95⟩] ∧
    "gpu-0" ∈ (checkThresholds DEFAULT_THRESHOLDS
        { gpus := [{ info := { id := 7, name := "A", vendor := "v", memory_total_mb := 0 },
                     current := { gpu_utilization := 95, memory_utilization := 0,
                                  temperature_celsius := none } }],
          system := (cpuSnapshot 0).system }
        ∅).alerts ∧
    "gpu-7" ∉ (checkThresholds DEFAULT_THRESHOLDS
        { gpus := [{ info := { id := 7, name := "A", vendor := "v", memory_total_mb := 0 },
                     current := { gpu_utilization := 95, memory_utilization := 0,
                                  temperature_celsius := none } }],
          system := (cpuSnapshot 0).system }
        ∅).alerts ∧
    "gpu-" ++ toString 7 = "gpu-7" := by
  decide

/-- C9 (amended): per-device metrics are evaluated independently per
device position, keyed "<metricKind>-<arrayIndex>" with the forEach
index (the id field of the device is never consulted): for any two
devices with arbitrary info records, the first at 95% utilization and
the second at 50% against threshold 90, evaluation emits exactly one
AlertEvent, keyed "gpu-0" for the first position, and adds no key for
the second device. -/
theorem C9_amended (infoA infoB : GpuInfo) :
    (checkThresholds DEFAULT_THRESHOLDS
        { gpus := [{ info := infoA,
                     current := { gpu_utilization := 95, memory_utilization := 0,
                                  temperature_celsius := none } },
                   { info := infoB,
                     current := { gpu_utilization := 50, memory_utilization := 0,
                                  temperature_celsius := none } }],
          system := (cpuSnapshot 0).system }
        ∅).events = [⟨"gpu-0", Severity.warning, 95⟩] ∧
    (checkThresholds DEFAULT_THRESHOLDS
        { gpus := [{ info := infoA,
                     current := { gpu_utilization := 95, memory_utilization := 0,
                                  temperature_celsius := none } },
                   { info := infoB,
                     current := { gpu_utilization := 50, memory_utilization := 0,
                                  temperature_celsius := none } }],
          system := (cpuSnapshot 0).system }
        ∅).alerts = {"gpu-0"} := by
  exact ⟨rfl, rfl⟩

theorem checkThresholds_enter (th : ThresholdConfig) (data : AllMetrics) (A : Finset String)
    (m : Metric) (v : ℚ) (hv : m.value? data = some v)
    (hz : ¬(m.isTemp = true ∧ v = 0)) (h : v ≥ m.threshold th ∧ m.key ∉ A) :
    m.key ∈ (checkThresholds th data A).alerts ∧
    eventsFor m.key (checkThresholds th data A).events =
      [⟨m.key, if m.isTemp = true then Severity.error else Severity.warning, v⟩] := by
  cases m with
  | cpu =>
    simp only [Metric.value?, Option.some.injEq] at hv
    subst hv
    obtain ⟨cm, ce⟩ := checkThresholds_cpu_char th data A
    simp only [Metric.key, Metric.threshold, Metric.isTemp, Bool.false_eq_true,
      if_false] at h ⊢
    exact ⟨cm.mpr (Or.inl h), by rw [ce, if_pos h]⟩
  | memory =>
    simp only [Metric.value?, Option.some.injEq] at hv
    subst hv
    obtain ⟨cm, ce⟩ := checkThresholds_memory_char th data A
    simp only [Metric.key, Metric.threshold, Metric.isTemp, Bool.false_eq_true,
      if_false] at h ⊢
    exact ⟨cm.mpr (Or.inl h), by rw [ce, if_pos h]⟩
  | swap =>
    simp only [Metric.value?, Option.some.injEq] at hv
    subst hv
    obtain ⟨cm, ce⟩ := checkThresholds_swap_char th data A
    simp only [Metric.key, Metric.threshold, Metric.isTemp, Bool.false_eq_true,
      if_false] at h ⊢
    exact ⟨cm.mpr (Or.inl h), by rw [ce, if_pos h]⟩
  | gpuUtil i =>
    simp only [Metric.value?] at hv
    cases hg : data.gpus[i]? with
    | none => rw [hg] at hv; exact absurd hv (by simp)
    | some g =>
      rw [hg] at hv
      simp only [Option.map_some', Option.some.injEq] at hv
      obtain ⟨cm, ce⟩ := checkThresholds_gpu_char th data A i g hg
      rw [hv] at cm ce
      simp only [Metric.key, Metric.threshold, Metric.isTemp, Bool.false_eq_true,
        if_false] at h ⊢
      exact ⟨cm.mpr (Or.inl h), by rw [ce, if_pos h]⟩
  | gpuMem i =>
    simp only [Metric.value?] at hv
    cases hg : data.gpus[i]? with
    | none => rw [hg] at hv; exact absurd hv (by simp)
    | some g =>
      rw [hg] at hv
      simp only [Option.map_some', Option.some.injEq] at hv
      obtain ⟨cm, ce⟩ := checkThresholds_gpuMem_char th data A i g hg
      rw [hv] at cm ce
      simp only [Metric.key, Metric.threshold, Metric.isTemp, Bool.false_eq_true,
        if_false] at h ⊢
      exact ⟨cm.mpr (Or.inl h), by rw [ce, if_pos h]⟩
  | temp i =>
    simp only [Metric.value?] at hv
    cases hg : data.gpus[i]? with
    | none => rw [hg] at hv; exact absurd hv (by simp)
    | some g =>
      rw [hg] at hv
      simp only [Option.some_bind] at hv
      obtain ⟨cm, ce⟩ := checkThresholds_temp_char th data A i g hg
      rw [hv] at cm ce
      simp only [Option.some.injEq, exists_eq_left, exists_eq_left'] at cm
      dsimp only at ce
      simp only [Metric.isTemp, eq_self_iff_true, true_and] at hz
      simp only [Metric.key, Metric.threshold, Metric.isTemp, eq_self_iff_true, true_and,
        if_true] at h ⊢
      exact ⟨cm.mpr (Or.inl ⟨hz, h⟩), by rw [ce, if_pos ⟨hz, h.1, h.2⟩]⟩

/-- C10 counterexample: the claim's consequence "any metric still at or
above its (new) threshold emits a fresh AlertEvent on the next
evaluation" fails at a concrete input: after a save the active set is
empty, and the temperature metric of device 0 reads exactly 0 against a
persisted threshold of 0 (at or above it), yet the next evaluation
emits nothing and activates nothing - the falsiness-guarded temperature
branch treats the 0 reading as missing. -/
theorem C10_counterexample :
    (handleSaveThresholds ⟨none, none, 0, DEFAULT_THRESHOLDS, {"temp-0"}, emptyHistorical⟩
        { cpu := 90, memory := 85, swap := 75, gpu := 90, gpuMemory := 90, temperature := 0,
          diskIO := 500, networkIO := 100 }).activeAlerts = ∅ ∧
    (Metric.temp 0).value?
        { gpus := [{ info := { id := 0, name := "g", vendor := "v", memory_total_mb := 0 },
                     current := { gpu_utilization := 0, memory_utilization := 0,
                                  temperature_celsius := some 0 } }],
          system := (cpuSnapshot 0).system } = some 0 ∧
    (0 : ℚ) ≥ (Metric.temp 0).threshold
        { cpu := 90, memory := 85, swap := 75, gpu := 90, gpuMemory := 90, temperature := 0,
          diskIO := 500, networkIO := 100 } ∧
    (checkThresholds
        { cpu := 90, memory := 85, swap := 75, gpu := 90, gpuMemory := 90, temperature := 0,
          diskIO := 500, networkIO := 100 }
        { gpus := [{ info := { id := 0, name := "g", vendor := "v", memory_total_mb := 0 },
                     current := { gpu_utilization := 0, memory_utilization := 0,
                                  temperature_celsius := some 0 } }],
          system := (cpuSnapshot 0).system }
        (handleSaveThresholds ⟨none, none, 0, DEFAULT_THRESHOLDS, {"temp-0"}, emptyHistorical⟩
          { cpu := 90, memory := 85, swap := 75, gpu := 90, gpuMemory := 90, temperature := 0,
            diskIO := 500, networkIO := 100 }).activeAlerts).events = [] ∧
    (Metric.temp 0).key ∉
      (checkThresholds
        { cpu := 90, memory := 85, swap := 75, gpu := 90, gpuMemory := 90, temperature := 0,
          diskIO := 500, networkIO := 100 }
        { gpus := [{ info := { id := 0, name := "g", vendor := "v", memory_total_mb := 0 },
                     current := { gpu_utilization := 0, memory_utilization := 0,
                                  temperature_celsius := some 0 } }],
          system := (cpuSnapshot 0).system }
        (handleSaveThresholds ⟨none, none, 0, DEFAULT_THRESHOLDS, {"temp-0"}, emptyHistorical⟩
          { cpu := 90, memory := 85, swap := 75, gpu := 90, gpuMemory := 90, temperature := 0,
            diskIO := 500, networkIO := 100 }).activeAlerts).alerts := by
  decide

/-- C10 (amended): saving a new threshold configuration empties the
entire active alert set as a side effect - for every page state and
every saved config, immediately after the save no alert key is active -
so any tracked metric whose current value is at or above its (new)
threshold emits exactly one fresh AlertEvent and re-activates its key on
the next evaluation, even if it had already alerted before the save,
except a temperature-class metric whose reading is exactly 0, which the
evaluator treats like a missing reading (JS falsiness) and never emits. -/
theorem C10_amended (s : PageState) (newTh : ThresholdConfig) (data : AllMetrics)
    (m : Metric) (v : ℚ) (hv : m.value? data = some v)
    (hge : v ≥ m.threshold newTh) (hz : ¬(m.isTemp = true ∧ v = 0)) :
    (handleSaveThresholds s newTh).activeAlerts = ∅ ∧
    m.key ∈ (checkThresholds newTh data (handleSaveThresholds s newTh).activeAlerts).alerts ∧
    eventsFor m.key
      (checkThresholds newTh data (handleSaveThresholds s newTh).activeAlerts).events =
      [⟨m.key, if m.isTemp = true then Severity.error else Severity.warning, v⟩] := by
  have h := checkThresholds_enter newTh data ∅ m v hv hz ⟨hge, Finset.not_mem_empty _⟩
  exact ⟨rfl, h.1, h.2⟩

/-- Witness for C10: a page state that had already alerted on cpu saves
the default configuration while the snapshot is still at 95: the set is
emptied and the cpu metric re-emits one warning on the next evaluation. -/
theorem C10_amended_witness :
    (handleSaveThresholds ⟨none, none, 0, DEFAULT_THRESHOLDS, {"cpu"}, emptyHistorical⟩
        DEFAULT_THRESHOLDS).activeAlerts = ∅ ∧
    "cpu" ∈ (checkThresholds DEFAULT_THRESHOLDS (cpuSnapshot 95)
        (handleSaveThresholds ⟨none, none, 0, DEFAULT_THRESHOLDS, {"cpu"}, emptyHistorical⟩
          DEFAULT_THRESHOLDS).activeAlerts).alerts ∧
    eventsFor "cpu"
      (checkThresholds DEFAULT_THRESHOLDS (cpuSnapshot 95)
        (handleSaveThresholds ⟨none, none, 0, DEFAULT_THRESHOLDS, {"cpu"}, emptyHistorical⟩
          DEFAULT_THRESHOLDS).activeAlerts).events =
      [⟨"cpu", Severity.warning, 95⟩] := by
  have h := C10_amended ⟨none, none, 0, DEFAULT_THRESHOLDS, {"cpu"}, emptyHistorical⟩
    DEFAULT_THRESHOLDS (cpuSnapshot 95) Metric.cpu 95 rfl (by decide) (by decide)
  simpa [Metric.key, Metric.isTemp] using h

/-- C4: a failed fetch stores only the error message - the snapshot, the
session uptime, the thresholds, every rolling history buffer and the
active alert set are exactly as before the tick and no event is
published - and the run continues: the remaining ticks process from that
same state, and on a live interval the tick leaves the interval live, so
a failed fetch never stops future polling. -/
theorem C4_failure_tick (s : PageState) (msg : String)
    (rest : List (Except String AllMetrics)) (p : PageState) :
    fetchTick s (Except.error msg) = ({ s with error := some msg }, []) ∧
    runTicks s (Except.error msg :: rest) = runTicks { s with error := some msg } rest ∧
    intervalTick ⟨p, false⟩ (Except.error msg) =
      (⟨{ p with error := some msg }, false⟩, []) := by
  refine ⟨rfl, ?_, rfl⟩
  simp [runTicks, fetchTick]

/-- C5 counterexample: stop() is invoked (the interval is cleared) while
a fetch is pending; when that fetch resolves with a snapshot at cpu 95,
the late resolution still publishes one AlertEvent, adds "cpu" to the
active set and appends to the cpu history - mutation, evaluation and
publication all occur, contrary to the claim. -/
theorem C5_counterexample :
    (resolveInFlight
        (stopLoop ⟨⟨none, none, 0, DEFAULT_THRESHOLDS, ∅, emptyHistorical⟩, false⟩)
        (Except.ok (cpuSnapshot 95))).2 = [⟨"cpu", Severity.warning, 95⟩] ∧
    "cpu" ∈ (resolveInFlight
        (stopLoop ⟨⟨none, none, 0, DEFAULT_THRESHOLDS, ∅, emptyHistorical⟩, false⟩)
        (Except.ok (cpuSnapshot 95))).1.page.activeAlerts ∧
    (resolveInFlight
        (stopLoop ⟨⟨none, none, 0, DEFAULT_THRESHOLDS, ∅, emptyHistorical⟩, false⟩)
        (Except.ok (cpuSnapshot 95))).1.page.historical.cpu = [95] := by
  decide

/-- C5 (amended): clearing the interval does not guard the in-flight
fetch: its late resolution is processed exactly like a live tick - on
success the histories are appended, the alerts are evaluated and the
events are published (in particular a snapshot at or above the cpu
threshold with the key inactive emits a fresh AlertEvent after stop),
and on failure the error state is still stored.  Only interval-scheduled
ticks cease after stop. -/
theorem C5_amended (p : PageState) (b : Bool) (data : AllMetrics) (msg : String)
    (h1 : data.system.cpu_usage ≥ p.thresholds.cpu) (h2 : "cpu" ∉ p.activeAlerts) :
    resolveInFlight (stopLoop ⟨p, b⟩) (Except.ok data) =
      (⟨(fetchTick p (Except.ok data)).1, true⟩, (fetchTick p (Except.ok data)).2) ∧
    (resolveInFlight (stopLoop ⟨p, b⟩) (Except.ok data)).1.page.historical =
      updateHistorical p.historical data ∧
    "cpu" ∈ (resolveInFlight (stopLoop ⟨p, b⟩) (Except.ok data)).1.page.activeAlerts ∧
    eventsFor "cpu" (resolveInFlight (stopLoop ⟨p, b⟩) (Except.ok data)).2 =
      [⟨"cpu", Severity.warning, data.system.cpu_usage⟩] ∧
    resolveInFlight (stopLoop ⟨p, b⟩) (Except.error msg) =
      (⟨{ p with error := some msg }, true⟩, []) ∧
    (∀ r, intervalTick (stopLoop ⟨p, b⟩) r = (stopLoop ⟨p, b⟩, [])) := by
  obtain ⟨cm, ce⟩ := checkThresholds_cpu_char p.thresholds data p.activeAlerts
  refine ⟨rfl, rfl, ?_, ?_, rfl, fun r => rfl⟩
  · exact cm.mpr (Or.inl ⟨h1, h2⟩)
  · show eventsFor "cpu" (checkThresholds p.thresholds data p.activeAlerts).events = _
    rw [ce, if_pos ⟨h1, h2⟩]

/-- Witness for C5: the concrete stopped loop of the counterexample,
applied through the amended theorem. -/
theorem C5_amended_witness :
    "cpu" ∈ (resolveInFlight
        (stopLoop ⟨⟨none, none, 0, DEFAULT_THRESHOLDS, ∅, emptyHistorical⟩, false⟩)
        (Except.ok (cpuSnapshot 95))).1.page.activeAlerts ∧
    eventsFor "cpu" (resolveInFlight
        (stopLoop ⟨⟨none, none, 0, DEFAULT_THRESHOLDS, ∅, emptyHistorical⟩, false⟩)
        (Except.ok (cpuSnapshot 95))).2 =
      [⟨"cpu", Severity.warning, 95⟩] := by
  have h := C5_amended ⟨none, none, 0, DEFAULT_THRESHOLDS, ∅, emptyHistorical⟩ false
    (cpuSnapshot 95) "m" (by decide) (by decide)
  exact ⟨h.2.2.1, h.2.2.2.1⟩

/-- C8: load always returns a complete ThresholdConfig (it is a total
function: every read outcome, including failure, produces a value): on
read failure it returns the defaults, and on a parsed record every
present key keeps its persisted value while every absent key falls back
to the compiled-in default - in particular a record missing the
gpuMemory key yields the default gpuMemory. -/
theorem C8_load_merges (p : PersistedThresholds) :
    loadThresholds none = DEFAULT_THRESHOLDS ∧
    (p.gpuMemory = none →
      (loadThresholds (some p)).gpuMemory = DEFAULT_THRESHOLDS.gpuMemory) ∧
    (∀ x, p.cpu = some x → (loadThresholds (some p)).cpu = x) ∧
    (∀ x, p.memory = some x → (loadThresholds (some p)).memory = x) ∧
    (∀ x, p.swap = some x → (loadThresholds (some p)).swap = x) ∧
    (∀ x, p.gpu = some x → (loadThresholds (some p)).gpu = x) ∧
    (∀ x, p.gpuMemory = some x → (loadThresholds (some p)).gpuMemory = x) ∧
    (∀ x, p.temperature = some x → (loadThresholds (some p)).temperature = x) ∧
    (∀ x, p.diskIO = some x → ThresholdConfig.diskIO (loadThresholds (some p)) = x) ∧
    (∀ x, p.networkIO = some x → ThresholdConfig.networkIO (loadThresholds (some p)) = x) ∧
    (p.cpu = none → (loadThresholds (some p)).cpu = DEFAULT_THRESHOLDS.cpu) ∧
    (p.memory = none → (loadThresholds (some p)).memory = DEFAULT_THRESHOLDS.memory) ∧
    (p.swap = none → (loadThresholds (some p)).swap = DEFAULT_THRESHOLDS.swap) ∧
    (p.gpu = none → (loadThresholds (some p)).gpu = DEFAULT_THRESHOLDS.gpu) ∧
    (p.temperature = none →
      (loadThresholds (some p)).temperature = DEFAULT_THRESHOLDS.temperature) ∧
    (p.diskIO = none →
      ThresholdConfig.diskIO (loadThresholds (some p)) =
        ThresholdConfig.diskIO DEFAULT_THRESHOLDS) ∧
    (p.networkIO = none →
      ThresholdConfig.networkIO (loadThresholds (some p)) =
        ThresholdConfig.networkIO DEFAULT_THRESHOLDS) := by
  refine ⟨rfl, fun h => ?_, fun x h => ?_, fun x h => ?_, fun x h => ?_, fun x h => ?_,
    fun x h => ?_, fun x h => ?_, fun x h => ?_, fun x h => ?_, fun h => ?_, fun h => ?_,
    fun h => ?_, fun h => ?_, fun h => ?_, fun h => ?_, fun h => ?_⟩ <;>
    simp [loadThresholds, h]

/-- Witness for C8: a persisted record carrying only a cpu value of 50:
the loaded configuration keeps cpu = 50 and takes the default gpuMemory. -/
theorem C8_witness :
    loadThresholds none = DEFAULT_THRESHOLDS ∧
    (loadThresholds
        (some ⟨some 50, none, none, none, none, none, none, none⟩)).gpuMemory =
      DEFAULT_THRESHOLDS.gpuMemory ∧
    (loadThresholds (some ⟨some 50, none, none, none, none, none, none, none⟩)).cpu = 50 :=
  ⟨(C8_load_merges ⟨some 50, none, none, none, none, none, none, none⟩).1,
   (C8_load_merges ⟨some 50, none, none, none, none, none, none, none⟩).2.1 rfl,
   (C8_load_merges ⟨some 50, none, none, none, none, none, none, none⟩).2.2.1 50 rfl⟩

end Ursly
